import Mathlib

/-
Verification of the connection lifecycle manager of the MGAWhatsApp repository.
The definitions below are a shallow embedding of src/sessions/manager.js,
src/services/whatsapp.service.js and src/routes/channels.routes.js.
JavaScript Maps are modelled as association lists (key to value maps);
JavaScript Sets and the set of persisted credential directories are modelled
as lists of keys; timestamps (new Date()) are passed in as a Nat parameter;
external collaborators (the protocol client socket, QR image encoding,
recipient verification) are passed in as explicit parameters capturing the
outcome of the awaited external call.
-/

namespace MGA

/-- Channel status strings used by manager.js. -/
inductive Status
  | CREATED
  | CONNECTING
  | QRCODE
  | CONNECTED
  | RECONNECTING
  | LOGGED_OUT
  | FAILED
  | RESTORING
deriving DecidableEq

/-- The externally owned connection handle (Baileys socket). Only the
observable behaviour the manager depends on is modelled: whether the socket
has an authenticated user, and whether its logout and end calls throw. -/
structure Socket where
  user : Option String
  logoutThrows : Bool
  endThrows : Bool
  wsReadyState : Nat
deriving DecidableEq

/-- Entry of the sessions map: manager.js stores an object with the socket and
the saveCreds callback; only the socket is observable here. -/
structure Session where
  socket : Socket
deriving DecidableEq

/-- Entry of the channels map (manager.js constructor comment: channelId to
status, qrCode, lastSeen; reconnectAttempts is added by the close handler).
Fields that a given JavaScript object may lack (qrCode, reconnectAttempts
before the first close) are Options, with none standing for undefined. -/
structure Channel where
  status : Status
  qrCode : Option String
  lastSeen : Nat
  reconnectAttempts : Option Nat
deriving DecidableEq

/-- The mutable state of the SessionManager singleton, together with the
persisted credential directories on disk (authFiles holds the channel ids
whose auth_info directory exists under src/channels). -/
structure ManagerState where
  sessions : List (String × Session)
  channels : List (String × Channel)
  qrPromises : List String
  connectingChannels : List String
  authFiles : List String
deriving DecidableEq

/-- Map.get: the value stored under the key, if any. -/
def alGet {α : Type} (l : List (String × α)) (k : String) : Option α :=
  (l.find? (fun p => p.1 == k)).map Prod.snd

/-- Map.set: replace the binding of the key (as a key-to-value map; JavaScript
insertion order is irrelevant to every property proved here). -/
def alSet {α : Type} (l : List (String × α)) (k : String) (v : α) : List (String × α) :=
  (k, v) :: l.filter (fun p => p.1 != k)

/-- Map.delete: remove the binding of the key. -/
def alDelete {α : Type} (l : List (String × α)) (k : String) : List (String × α) :=
  l.filter (fun p => p.1 != k)

/-- Set.delete / fs.rmSync on a list of keys. -/
def keyDelete (l : List String) (k : String) : List String :=
  l.filter (fun x => x != k)

/-- Baileys DisconnectReason.loggedOut status code. -/
def DisconnectReason.loggedOut : Nat := 401

/-- The connection.update payload as consumed by handleConnectionUpdate:
connection is the raw string field (undefined modelled as none), statusCode
is lastDisconnect?.error?.output?.statusCode, qr the raw pairing payload. -/
structure ConnUpdate where
  connection : Option String
  statusCode : Option Nat
  qr : Option String
deriving DecidableEq

/-- Result of one run of handleConnectionUpdate: the updated manager state and
the delay of the reconnect attempt scheduled with setTimeout, if any. -/
structure HandleResult where
  state : ManagerState
  scheduledDelay : Option Nat
deriving DecidableEq

/-- Spread of a possibly-undefined channel object. Every update site in
manager.js reassigns status and lastSeen, so their placeholder values are
never observable; qrCode and reconnectAttempts are none exactly when the
spread of an undefined channel leaves them undefined. -/
def chanBase (c : Option Channel) : Channel :=
  c.getD { status := Status.CREATED, qrCode := none, lastSeen := 0, reconnectAttempts := none }

/-- The value of (channel?.reconnectAttempts || 0) read by the close handler. -/
def currentAttempts (st : ManagerState) (id : String) : Nat :=
  ((alGet st.channels id).bind Channel.reconnectAttempts).getD 0

/-- handleQRCode, manager.js lines 272 to 295: encode the pairing payload to a
data URL (external collaborator, passed as the encode parameter). On success
set status QRCODE, store the image, update lastSeen, and resolve any pending
qrPromise; on failure reject it. Settling a promise does not change the
qrPromises map itself, so only the channels map is touched. -/
def handleQRCode (st : ManagerState) (id : String) (qr : String) (now : Nat)
    (encode : String → Except String String) : ManagerState :=
  match encode qr with
  | Except.ok url =>
      let c := { chanBase (alGet st.channels id) with
                  status := Status.QRCODE, qrCode := some url, lastSeen := now }
      { st with channels := alSet st.channels id c }
  | Except.error _ => st

/-- Lines 199 to 202 of handleConnectionUpdate: if the update carries a qr
field, handleQRCode runs before the connection field is examined. -/
def qrPhase (st : ManagerState) (id : String) (u : ConnUpdate) (now : Nat)
    (encode : String → Except String String) : ManagerState :=
  match u.qr with
  | some q => handleQRCode st id q now encode
  | none => st

/-- Lines 204 to 267 of handleConnectionUpdate: the connection-state machine.
shouldReconnect is statusCode different from DisconnectReason.loggedOut; on a
reconnectable close with attempts at most 5 the channel goes RECONNECTING and
a retry is scheduled after min(3000 * 2 ^ (attempts - 1), 60000) ms; past the
limit it goes FAILED with attempts reset to 0 and nothing scheduled; a
logged-out close goes LOGGED_OUT and drops the session; open goes CONNECTED
clearing qrCode and attempts; connecting goes CONNECTING. -/
def connPhase (st : ManagerState) (id : String) (u : ConnUpdate) (now : Nat) : HandleResult :=
  if u.connection = some ("close") then
    if u.statusCode ≠ some DisconnectReason.loggedOut then
      if currentAttempts st id + 1 ≤ 5 then
        let c := { chanBase (alGet st.channels id) with
                    status := Status.RECONNECTING, lastSeen := now,
                    reconnectAttempts := some (currentAttempts st id + 1) }
        { state := { st with channels := alSet st.channels id c },
          scheduledDelay := some (min (3000 * 2 ^ (currentAttempts st id + 1 - 1)) 60000) }
      else
        let c := { chanBase (alGet st.channels id) with
                    status := Status.FAILED, lastSeen := now,
                    reconnectAttempts := some 0 }
        { state := { st with channels := alSet st.channels id c },
          scheduledDelay := none }
    else
      let c := { chanBase (alGet st.channels id) with
                  status := Status.LOGGED_OUT, lastSeen := now }
      { state := { st with
                    channels := alSet st.channels id c,
                    sessions := alDelete st.sessions id },
        scheduledDelay := none }
  else if u.connection = some ("open") then
    let c := { chanBase (alGet st.channels id) with
                status := Status.CONNECTED, qrCode := none, lastSeen := now,
                reconnectAttempts := some 0 }
    { state := { st with channels := alSet st.channels id c },
      scheduledDelay := none }
  else if u.connection = some ("connecting") then
    let c := { chanBase (alGet st.channels id) with
                status := Status.CONNECTING, lastSeen := now }
    { state := { st with channels := alSet st.channels id c },
      scheduledDelay := none }
  else { state := st, scheduledDelay := none }

/-- handleConnectionUpdate, manager.js lines 195 to 267: the qr field is
processed first, then the connection field. -/
def handleConnectionUpdate (st : ManagerState) (id : String) (u : ConnUpdate) (now : Nat)
    (encode : String → Except String String) : HandleResult :=
  connPhase (qrPhase st id u now encode) id u now

/-- closeChannel, manager.js lines 339 to 351. The try block first awaits
socket.logout() when a session is present, and only then deletes the sessions
and channels entries; a throwing logout jumps to the catch, which logs the
error and returns normally, so the two deletes are skipped. -/
def closeChannel (st : ManagerState) (id : String) : ManagerState :=
  match alGet st.sessions id with
  | some s =>
      if s.socket.logoutThrows then st
      else { st with sessions := alDelete st.sessions id, channels := alDelete st.channels id }
  | none => { st with sessions := alDelete st.sessions id, channels := alDelete st.channels id }

/-- Outcomes of the external collaborators awaited by initializeSession (the
socket produced by makeWASocket; useMultiFileAuthState and
fetchLatestBaileysVersion are modelled as succeeding). -/
structure InitEnv where
  newSocket : Socket
deriving DecidableEq

/-- initializeSession, manager.js lines 103 to 190. The guard at lines 106 to
109 returns early, touching no other state, when the id is already in
connectingChannels — but the early return exits the try block, so the finally
at line 188 still runs and deletes the id from connectingChannels, clearing
the marker the original in-flight call had set. On the non-guarded path the
id is added to the guard set (line 110), any existing socket is ended (errors
ignored) and its sessions entry deleted, the auth_info directory is removed
when forceNew, the credential state is loaded, a new socket is created and
installed in sessions, and the finally removes the id added at line 110. -/
def initializeSession (st : ManagerState) (id : String) (forceNew : Bool)
    (env : InitEnv) : ManagerState :=
  if id ∈ st.connectingChannels then
    { st with connectingChannels := keyDelete st.connectingChannels id }
  else
    let st1 := { st with
                  sessions := alDelete st.sessions id,
                  connectingChannels := st.connectingChannels ++ [id] }
    let st2 := if forceNew && st1.authFiles.contains id
               then { st1 with authFiles := keyDelete st1.authFiles id }
               else st1
    let st3 := { st2 with sessions := alSet st2.sessions id { socket := env.newSocket } }
    { st3 with connectingChannels := keyDelete st3.connectingChannels id }

/-- Outcome of the Promise.race at manager.js lines 76 to 81: the qrPromise
resolved first, the 15 second timer fired first, or the qrPromise was
rejected. -/
inductive WaitOutcome
  | resolved
  | timedOut
  | rejected (msg : String)
deriving DecidableEq

/-- The object returned by createChannel (lines 88 to 92). -/
structure CreateResponse where
  channelId : String
  status : Status
  qrCode : Option String
deriving DecidableEq

/-- State after the synchronous prefix of createChannel (lines 45 to 69): the
Channel record is registered with status CREATED and a qrPromise entry is
opened for the id. -/
def createSetup (st : ManagerState) (id : String) (now : Nat) : ManagerState :=
  { st with
      channels := alSet st.channels id
        { status := Status.CREATED, qrCode := none, lastSeen := now, reconnectAttempts := none },
      qrPromises := id :: st.qrPromises.filter (fun x => x != id) }

/-- createChannel, manager.js lines 43 to 98. The run parameter stands for
the awaited external activity between line 72 and line 88: initializeSession
plus every connection event delivered while the caller blocks on the QR race.
Whatever the race outcome (resolved, 15 second timeout, or rejection), the
catch at line 82 absorbs the error with a warning and the finally at line 84
removes the qrPromise entry; the function then returns the status and qrCode
currently recorded for the channel. Reading .status of a missing record would
raise a TypeError (propagated by the outer catch after deleting the
qrPromise entry again). -/
def createChannel (st : ManagerState) (id : String) (now : Nat)
    (run : ManagerState → ManagerState) (outcome : WaitOutcome) :
    Except String (ManagerState × CreateResponse) :=
  if (alGet st.channels id).isSome then Except.error ("Canal já existe")
  else
    let mid := run (createSetup st id now)
    let raceError : Option String :=
      match outcome with
      | WaitOutcome.resolved => none
      | WaitOutcome.timedOut => some ("Timeout aguardando QR Code")
      | WaitOutcome.rejected m => some m
    -- lines 82 to 84: raceError, when present, is only logged, never raised
    let _ := raceError
    let st2 := { mid with qrPromises := mid.qrPromises.filter (fun x => x != id) }
    match alGet st2.channels id with
    | some c => Except.ok (st2, { channelId := id, status := c.status, qrCode := c.qrCode })
    | none => Except.error ("TypeError")

/-- The object returned by regenerateQRCode (lines 373 to 377); both reads use
optional chaining, so a missing record yields undefined fields. -/
structure RegenResponse where
  channelId : String
  status : Option Status
  qrCode : Option String
deriving DecidableEq

/-- regenerateQRCode, manager.js lines 356 to 382: end any live socket
(errors ignored), delete the sessions entry, wait about 1 second, then start
a fresh attempt with forceNew = true and return the recorded status/qrCode.
There is no existence check here; that lives in the HTTP route. -/
def regenerateQRCode (st : ManagerState) (id : String) (env : InitEnv) :
    ManagerState × RegenResponse :=
  let st1 := { st with sessions := alDelete st.sessions id }
  let st2 := initializeSession st1 id true env
  (st2, { channelId := id,
          status := (alGet st2.channels id).map Channel.status,
          qrCode := (alGet st2.channels id).bind Channel.qrCode })

/-- Result of the POST /channels/:channelId/qrcode route: HTTP status, error
code of the JSON body (if any), the manager state afterwards, and whether a
new connection attempt was started (regenerateQRCode invoked). -/
structure RegenRouteResult where
  httpStatus : Nat
  errorCode : Option String
  finalState : ManagerState
  startedInit : Bool
deriving DecidableEq

/-- POST /channels/:channelId/qrcode, channels.routes.js lines 109 to 145:
404 CHANNEL_NOT_FOUND when no Channel record exists, 400 when the channel is
already CONNECTED, otherwise regenerateQRCode runs and 200 is returned. -/
def regenerateRoute (st : ManagerState) (id : String) (env : InitEnv) : RegenRouteResult :=
  match alGet st.channels id with
  | none =>
      { httpStatus := 404, errorCode := some ("CHANNEL_NOT_FOUND"),
        finalState := st, startedInit := false }
  | some c =>
      if c.status = Status.CONNECTED then
        { httpStatus := 400, errorCode := some ("CHANNEL_ALREADY_CONNECTED"),
          finalState := st, startedInit := false }
      else
        { httpStatus := 200, errorCode := none,
          finalState := (regenerateQRCode st id env).1, startedInit := true }

/-- isChannelConnected, manager.js lines 320 to 323. -/
def isChannelConnected (st : ManagerState) (id : String) : Bool :=
  match alGet st.channels id with
  | some c => decide (c.status = Status.CONNECTED)
  | none => false

/-- getSocket, manager.js lines 313 to 315. -/
def getSocket (st : ManagerState) (id : String) : Option Socket :=
  (alGet st.sessions id).map Session.socket

/-- number.replace of every non-digit with the empty string (the regex uses
the ASCII digit class). -/
def digitsOf (s : String) : List Char :=
  s.data.filter Char.isDigit

/-- cleanNumber.startsWith of the string 55. -/
def startsWith55 : List Char → Bool
  | '5' :: '5' :: _ => true
  | _ => false

/-- formatWhatsAppNumber, whatsapp.service.js lines 344 to 354: strip every
non-digit, prepend 55 unless the digits already start with 55, and append the
jid suffix. -/
def formatWhatsAppNumber (number : String) : String :=
  let cleanNumber := digitsOf number
  let cleanNumber2 := if startsWith55 cleanNumber then cleanNumber else '5' :: '5' :: cleanNumber
  String.mk (cleanNumber2 ++ ("@s.whatsapp.net").data)

/-- Does the first list start with the second (String.startsWith on chars). -/
def startsWithL : List Char → List Char → Bool
  | _, [] => true
  | [], _ :: _ => false
  | a :: s, b :: t => a == b && startsWithL s t

/-- Does the first list contain the second as a contiguous run
(String.includes on chars). -/
def hasSubstr : List Char → List Char → Bool
  | s, [] => (fun _ => true) s
  | [], _ :: _ => false
  | a :: s, b :: t => startsWithL (a :: s) (b :: t) || hasSubstr s (b :: t)

/-- error.message.includes of whatsapp.service.js line 72. -/
def includesSub (s t : String) : Bool :=
  hasSubstr s.data t.data

/-- The catch at whatsapp.service.js lines 68 to 77: errors whose message
includes not-authorized or Connection Closed are rethrown as
CHANNEL_NOT_CONNECTED, every other error is rethrown unchanged. -/
def mapSendError (e : String) : String :=
  if includesSub e ("not-authorized") || includesSub e ("Connection Closed") then
    "CHANNEL_NOT_CONNECTED"
  else e

/-- Observable steps sendTextMessage performs after its connectivity checks:
the inter-message delay, number formatting, the onWhatsApp recipient
verification, and the actual send. -/
inductive SendEffect
  | delayApplied
  | formatted
  | verified
  | sent
deriving DecidableEq

/-- Outcomes of the external socket calls awaited by sendTextMessage: the
onWhatsApp verification result and the id of the message created by
sendMessage. -/
structure SendEnv where
  recipientExists : Bool
  recipientJid : String
  sentMessageId : String
deriving DecidableEq

/-- The success object returned by sendTextMessage (lines 58 to 63); the
field named to in the source is toJid here (to is reserved in Lean). -/
structure SendSuccess where
  messageId : String
  toJid : String
  message : String
deriving DecidableEq

/-- sendTextMessage, whatsapp.service.js lines 12 to 78. The three
connectivity checks (isChannelConnected, socket present, socket.user present)
each throw CHANNEL_NOT_CONNECTED before the delay, the number formatting, the
recipient verification, or the send happens; afterwards the message is sent
to the verified jid, or INVALID_WHATSAPP_NUMBER is thrown when the recipient
does not exist. Every thrown error passes through the catch of lines 68 to
77 (mapSendError). The second component lists the effects performed. -/
def sendTextMessage (st : ManagerState) (id : String) (toNumber : String) (message : String)
    (env : SendEnv) : Except String SendSuccess × List SendEffect :=
  if !(isChannelConnected st id) then
    (Except.error (mapSendError ("CHANNEL_NOT_CONNECTED")), [])
  else
    match getSocket st id with
    | none => (Except.error (mapSendError ("CHANNEL_NOT_CONNECTED")), [])
    | some sock =>
        match sock.user with
        | none => (Except.error (mapSendError ("CHANNEL_NOT_CONNECTED")), [])
        | some _ =>
            let _ := formatWhatsAppNumber toNumber
            if env.recipientExists then
              (Except.ok { messageId := env.sentMessageId, toJid := env.recipientJid,
                           message := message },
               [SendEffect.delayApplied, SendEffect.formatted, SendEffect.verified,
                SendEffect.sent])
            else
              (Except.error (mapSendError ("INVALID_WHATSAPP_NUMBER")),
               [SendEffect.delayApplied, SendEffect.formatted, SendEffect.verified])

/-- Invariant of claim C5: every stored reconnectAttempts value is at most 5
(an absent field reads as 0). -/
def ChanInv (st : ManagerState) : Prop :=
  ∀ p ∈ st.channels, (Channel.reconnectAttempts p.2).getD 0 ≤ 5

/- Concrete data for witnesses and counterexamples. -/

/-- A channel id used in concrete witness states. -/
def cidW : String := "ch1"

/-- A socket whose logout call throws. -/
def sockBad : Socket :=
  { user := none, logoutThrows := true, endThrows := false, wsReadyState := 0 }

/-- A socket whose calls all succeed. -/
def sockOK : Socket :=
  { user := some ("5511999@s.whatsapp.net"), logoutThrows := false,
    endThrows := false, wsReadyState := 1 }

/-- A channel record with two reconnect attempts recorded. -/
def chanR2 : Channel :=
  { status := Status.RECONNECTING, qrCode := none, lastSeen := 0, reconnectAttempts := some 2 }

/-- A channel record with five reconnect attempts recorded. -/
def chanR5 : Channel :=
  { status := Status.RECONNECTING, qrCode := none, lastSeen := 0, reconnectAttempts := some 5 }

/-- A connected channel record. -/
def chanConn : Channel :=
  { status := Status.CONNECTED, qrCode := none, lastSeen := 0, reconnectAttempts := some 0 }

/-- The empty manager state. -/
def emptyState : ManagerState :=
  { sessions := [], channels := [], qrPromises := [], connectingChannels := [], authFiles := [] }

/-- State with one channel (two attempts recorded) and a live session. -/
def stR2 : ManagerState :=
  { sessions := [(cidW, { socket := sockOK })], channels := [(cidW, chanR2)],
    qrPromises := [], connectingChannels := [], authFiles := [cidW] }

/-- State with one channel that has exhausted five attempts. -/
def stR5 : ManagerState :=
  { sessions := [], channels := [(cidW, chanR5)],
    qrPromises := [], connectingChannels := [], authFiles := [cidW] }

/-- State whose live session has a throwing logout. -/
def stBad : ManagerState :=
  { sessions := [(cidW, { socket := sockBad })], channels := [(cidW, chanR2)],
    qrPromises := [], connectingChannels := [], authFiles := [cidW] }

/-- State with a session whose logout succeeds. -/
def stGood : ManagerState :=
  { sessions := [(cidW, { socket := sockOK })], channels := [(cidW, chanConn)],
    qrPromises := [], connectingChannels := [], authFiles := [cidW] }

/-- State in which cidW is marked as mid-start. -/
def stGuard : ManagerState :=
  { sessions := [], channels := [(cidW, chanR2)],
    qrPromises := [], connectingChannels := [cidW], authFiles := [cidW] }

/-- A close update with a recoverable (non logged-out) cause. -/
def updClose : ConnUpdate :=
  { connection := some ("close"), statusCode := some 440, qr := none }

/-- A close update whose cause is the logged-out status code. -/
def updLoggedOut : ConnUpdate :=
  { connection := some ("close"), statusCode := some 401, qr := none }

/-- An open update. -/
def updOpen : ConnUpdate :=
  { connection := some ("open"), statusCode := none, qr := none }

/-- A QR encoder used in witnesses. -/
def encW : String → Except String String :=
  fun s => Except.ok (String.append ("data:") s)

/-- A send environment used in witnesses. -/
def sendEnvW : SendEnv :=
  { recipientExists := true, recipientJid := "55@s.whatsapp.net", sentMessageId := "m1" }

/-- An init environment used in witnesses. -/
def initEnvW : InitEnv :=
  { newSocket := sockOK }

/- Helper lemmas about the association list operations. -/

theorem alGet_alSet_self {α : Type} (l : List (String × α)) (k : String) (v : α) :
    alGet (alSet l k v) k = some v := by
  simp [alGet, alSet]

theorem find?_filter_ne {α : Type} (l : List (String × α)) (k : String) :
    (l.filter (fun p => p.1 != k)).find? (fun p => p.1 == k) = none := by
  rw [List.find?_eq_none]
  intro x hx
  have h2 := (List.mem_filter.mp hx).2
  simp only [bne_iff_ne, ne_eq] at h2
  simp [h2]

theorem alGet_alDelete_self {α : Type} (l : List (String × α)) (k : String) :
    alGet (alDelete l k) k = none := by
  rw [alGet, alDelete, find?_filter_ne]
  rfl

theorem mem_alSet {α : Type} {l : List (String × α)} {k : String} {v : α} {p : String × α}
    (h : p ∈ alSet l k v) : p = (k, v) ∨ p ∈ l := by
  rw [alSet, List.mem_cons] at h
  rcases h with h | h
  · exact Or.inl h
  · exact Or.inr (List.mem_filter.mp h).1

theorem not_mem_keyDelete (l : List String) (k : String) : k ∉ keyDelete l k := by
  intro h
  have h2 := (List.mem_filter.mp h).2
  simp at h2

theorem chanBase_attempts (c : Option Channel) :
    (chanBase c).reconnectAttempts = c.bind Channel.reconnectAttempts := by
  cases c <;> rfl

/- Helper lemmas about the qr phase of the connection handler. -/

theorem qrPhase_sessions (st : ManagerState) (id : String) (u : ConnUpdate) (now : Nat)
    (encode : String → Except String String) :
    (qrPhase st id u now encode).sessions = st.sessions := by
  cases hq : u.qr with
  | none => simp [qrPhase, hq]
  | some q =>
      simp only [qrPhase, hq]
      cases he : encode q <;> simp [handleQRCode, he]

theorem qrPhase_attemptsOpt (st : ManagerState) (id : String) (u : ConnUpdate) (now : Nat)
    (encode : String → Except String String) :
    (alGet (qrPhase st id u now encode).channels id).bind Channel.reconnectAttempts =
      (alGet st.channels id).bind Channel.reconnectAttempts := by
  cases hq : u.qr with
  | none => simp [qrPhase, hq]
  | some q =>
      simp only [qrPhase, hq]
      cases he : encode q with
      | error e => simp [handleQRCode, he]
      | ok url =>
          simp only [handleQRCode, he]
          rw [alGet_alSet_self]
          exact chanBase_attempts _

theorem qrPhase_currentAttempts (st : ManagerState) (id : String) (u : ConnUpdate) (now : Nat)
    (encode : String → Except String String) :
    currentAttempts (qrPhase st id u now encode) id = currentAttempts st id := by
  unfold currentAttempts
  rw [qrPhase_attemptsOpt]

/- Helper lemmas splitting connPhase into its branches. -/

theorem connPhase_reconnect (st : ManagerState) (id : String) (u : ConnUpdate) (now : Nat)
    (h1 : u.connection = some ("close"))
    (h2 : u.statusCode ≠ some DisconnectReason.loggedOut)
    (h3 : currentAttempts st id + 1 ≤ 5) :
    connPhase st id u now =
      { state := { st with channels := alSet st.channels id
                              { chanBase (alGet st.channels id) with
                                  status := Status.RECONNECTING, lastSeen := now,
                                  reconnectAttempts := some (currentAttempts st id + 1) } },
        scheduledDelay := some (min (3000 * 2 ^ (currentAttempts st id + 1 - 1)) 60000) } := by
  unfold connPhase
  rw [if_pos h1, if_pos h2, if_pos h3]

theorem connPhase_failed (st : ManagerState) (id : String) (u : ConnUpdate) (now : Nat)
    (h1 : u.connection = some ("close"))
    (h2 : u.statusCode ≠ some DisconnectReason.loggedOut)
    (h3 : ¬ currentAttempts st id + 1 ≤ 5) :
    connPhase st id u now =
      { state := { st with channels := alSet st.channels id
                              { chanBase (alGet st.channels id) with
                                  status := Status.FAILED, lastSeen := now,
                                  reconnectAttempts := some 0 } },
        scheduledDelay := none } := by
  unfold connPhase
  rw [if_pos h1, if_pos h2, if_neg h3]

theorem connPhase_loggedOut (st : ManagerState) (id : String) (u : ConnUpdate) (now : Nat)
    (h1 : u.connection = some ("close"))
    (h2 : u.statusCode = some DisconnectReason.loggedOut) :
    connPhase st id u now =
      { state := { st with
            channels := alSet st.channels id
                          { chanBase (alGet st.channels id) with
                              status := Status.LOGGED_OUT, lastSeen := now },
            sessions := alDelete st.sessions id },
        scheduledDelay := none } := by
  unfold connPhase
  rw [if_pos h1, if_neg (by simp [h2])]

theorem connPhase_open (st : ManagerState) (id : String) (u : ConnUpdate) (now : Nat)
    (h1 : u.connection = some ("open")) :
    connPhase st id u now =
      { state := { st with channels := alSet st.channels id
                              { chanBase (alGet st.channels id) with
                                  status := Status.CONNECTED, qrCode := none, lastSeen := now,
                                  reconnectAttempts := some 0 } },
        scheduledDelay := none } := by
  unfold connPhase
  rw [h1, if_neg (by decide), if_pos rfl]

/- C2, C3, C4 theorems. -/

/-- C2: a close event with a non logged-out cause, arriving when the stored
reconnectAttempts value reads n with n at most 4, moves the channel to
RECONNECTING, stores reconnectAttempts n + 1, and schedules the retry after
exactly min(3000 * 2 ^ n, 60000) milliseconds, which for n at most 4 equals
3000 * 2 ^ n (3000, 6000, 12000, 24000, 48000 ms for attempts 1 to 5). -/
theorem handleConnectionUpdate_backoff (st : ManagerState) (id : String) (u : ConnUpdate)
    (now : Nat) (encode : String → Except String String) (n : Nat)
    (hclose : u.connection = some ("close"))
    (hcause : u.statusCode ≠ some DisconnectReason.loggedOut)
    (hn : currentAttempts st id = n) (hle : n ≤ 4) :
    (∃ c, alGet (handleConnectionUpdate st id u now encode).state.channels id = some c ∧
        c.status = Status.RECONNECTING ∧ c.reconnectAttempts = some (n + 1)) ∧
    (handleConnectionUpdate st id u now encode).scheduledDelay =
      some (min (3000 * 2 ^ n) 60000) ∧
    min (3000 * 2 ^ n) 60000 = 3000 * 2 ^ n := by
  have hA : currentAttempts (qrPhase st id u now encode) id = n := by
    rw [qrPhase_currentAttempts, hn]
  have h3 : currentAttempts (qrPhase st id u now encode) id + 1 ≤ 5 := by omega
  have hcap : min (3000 * 2 ^ n) 60000 = 3000 * 2 ^ n := by
    have h16 : (2 : Nat) ^ n ≤ 2 ^ 4 := Nat.pow_le_pow_right (by omega) hle
    have hb : 3000 * 2 ^ n ≤ 60000 := by
      calc 3000 * 2 ^ n ≤ 3000 * 2 ^ 4 := Nat.mul_le_mul_left _ h16
        _ ≤ 60000 := by norm_num
    exact Nat.min_eq_left hb
  unfold handleConnectionUpdate
  rw [connPhase_reconnect _ _ _ _ hclose hcause h3]
  refine ⟨⟨_, alGet_alSet_self _ _ _, rfl, ?_⟩, ?_, hcap⟩
  · rw [hA]
  · simp [hA]

/-- C2 witness: in stR2 (two attempts recorded) a recoverable close yields
RECONNECTING, attempts 3, and a scheduled delay of 12000 ms. -/
theorem handleConnectionUpdate_backoff_witness :
    updClose.connection = some ("close") ∧
    updClose.statusCode ≠ some DisconnectReason.loggedOut ∧
    currentAttempts stR2 cidW = 2 ∧
    ((∃ c, alGet (handleConnectionUpdate stR2 cidW updClose 9 encW).state.channels cidW = some c ∧
        c.status = Status.RECONNECTING ∧ c.reconnectAttempts = some (2 + 1)) ∧
      (handleConnectionUpdate stR2 cidW updClose 9 encW).scheduledDelay =
        some (min (3000 * 2 ^ 2) 60000) ∧
      min (3000 * 2 ^ 2) 60000 = 3000 * 2 ^ 2) :=
  ⟨by decide, by decide, by decide,
    handleConnectionUpdate_backoff stR2 cidW updClose 9 encW 2 (by decide) (by decide)
      (by decide) (by decide)⟩

/-- C3: an open event moves the channel to CONNECTED, clears qrCode, and
resets reconnectAttempts to 0. -/
theorem handleConnectionUpdate_open (st : ManagerState) (id : String) (u : ConnUpdate)
    (now : Nat) (encode : String → Except String String)
    (hopen : u.connection = some ("open")) :
    ∃ c, alGet (handleConnectionUpdate st id u now encode).state.channels id = some c ∧
      c.status = Status.CONNECTED ∧ c.qrCode = none ∧ c.reconnectAttempts = some 0 := by
  unfold handleConnectionUpdate
  rw [connPhase_open _ _ _ _ hopen]
  exact ⟨_, alGet_alSet_self _ _ _, rfl, rfl, rfl⟩

/-- C3 witness: an open event on stR2 yields a CONNECTED record with cleared
qrCode and zero attempts. -/
theorem handleConnectionUpdate_open_witness :
    updOpen.connection = some ("open") ∧
    (∃ c, alGet (handleConnectionUpdate stR2 cidW updOpen 9 encW).state.channels cidW = some c ∧
      c.status = Status.CONNECTED ∧ c.qrCode = none ∧ c.reconnectAttempts = some 0) :=
  ⟨by decide, handleConnectionUpdate_open stR2 cidW updOpen 9 encW (by decide)⟩

/-- C4: a close event whose cause is DisconnectReason.loggedOut moves the
channel to LOGGED_OUT, removes the Session entry, schedules no reconnection
attempt, and leaves the stored reconnectAttempts value unchanged. -/
theorem handleConnectionUpdate_loggedOut (st : ManagerState) (id : String) (u : ConnUpdate)
    (now : Nat) (encode : String → Except String String)
    (hclose : u.connection = some ("close"))
    (hcause : u.statusCode = some DisconnectReason.loggedOut) :
    (∃ c, alGet (handleConnectionUpdate st id u now encode).state.channels id = some c ∧
        c.status = Status.LOGGED_OUT ∧
        c.reconnectAttempts = (alGet st.channels id).bind Channel.reconnectAttempts) ∧
    alGet (handleConnectionUpdate st id u now encode).state.sessions id = none ∧
    (handleConnectionUpdate st id u now encode).scheduledDelay = none := by
  unfold handleConnectionUpdate
  rw [connPhase_loggedOut _ _ _ _ hclose hcause]
  refine ⟨⟨_, alGet_alSet_self _ _ _, rfl, ?_⟩, alGet_alDelete_self _ _, rfl⟩
  rw [chanBase_attempts, qrPhase_attemptsOpt]

/-- C4 witness: a logged-out close on stR2 yields LOGGED_OUT, removes the
session, schedules nothing, and keeps the recorded attempts value. -/
theorem handleConnectionUpdate_loggedOut_witness :
    updLoggedOut.connection = some ("close") ∧
    updLoggedOut.statusCode = some DisconnectReason.loggedOut ∧
    ((∃ c, alGet (handleConnectionUpdate stR2 cidW updLoggedOut 9 encW).state.channels cidW =
          some c ∧
        c.status = Status.LOGGED_OUT ∧
        c.reconnectAttempts = (alGet stR2.channels cidW).bind Channel.reconnectAttempts) ∧
      alGet (handleConnectionUpdate stR2 cidW updLoggedOut 9 encW).state.sessions cidW = none ∧
      (handleConnectionUpdate stR2 cidW updLoggedOut 9 encW).scheduledDelay = none) :=
  ⟨by decide, by decide,
    handleConnectionUpdate_loggedOut stR2 cidW updLoggedOut 9 encW (by decide) (by decide)⟩

/- Helper lemmas for the attempts invariant. -/

theorem currentAttempts_le_of_inv {st : ManagerState} {id : String} (h : ChanInv st) :
    currentAttempts st id ≤ 5 := by
  unfold currentAttempts alGet
  cases hf : st.channels.find? (fun p => p.1 == id) with
  | none => simp
  | some p =>
      have hp := h p (List.mem_of_find?_eq_some hf)
      simpa using hp

theorem chanBase_attempts_le {st : ManagerState} {id : String} (h : ChanInv st) :
    ((chanBase (alGet st.channels id)).reconnectAttempts).getD 0 ≤ 5 := by
  rw [chanBase_attempts]
  exact currentAttempts_le_of_inv h

theorem chanInv_alSet {st : ManagerState} {id : String} {c : Channel}
    (h : ChanInv st) (hc : (c.reconnectAttempts).getD 0 ≤ 5) :
    ∀ p ∈ alSet st.channels id c, (Channel.reconnectAttempts p.2).getD 0 ≤ 5 := by
  intro p hp
  rcases mem_alSet hp with hpe | hpl
  · rw [hpe]
    exact hc
  · exact h p hpl

theorem chanInv_qrPhase (st : ManagerState) (id : String) (u : ConnUpdate) (now : Nat)
    (encode : String → Except String String) (h : ChanInv st) :
    ChanInv (qrPhase st id u now encode) := by
  cases hq : u.qr with
  | none => simpa [qrPhase, hq] using h
  | some q =>
      cases he : encode q with
      | error e => simpa [qrPhase, hq, handleQRCode, he] using h
      | ok url =>
          intro p hp
          simp only [qrPhase, hq, handleQRCode, he] at hp
          refine chanInv_alSet h ?_ p hp
          exact chanBase_attempts_le h

theorem chanInv_connPhase (st : ManagerState) (id : String) (u : ConnUpdate) (now : Nat)
    (h : ChanInv st) : ChanInv (connPhase st id u now).state := by
  by_cases h1 : u.connection = some ("close")
  · by_cases h2 : u.statusCode ≠ some DisconnectReason.loggedOut
    · by_cases h3 : currentAttempts st id + 1 ≤ 5
      · rw [connPhase_reconnect st id u now h1 h2 h3]
        exact chanInv_alSet h (by simpa using h3)
      · rw [connPhase_failed st id u now h1 h2 h3]
        exact chanInv_alSet h (by simp)
    · have h2e : u.statusCode = some DisconnectReason.loggedOut := by
        by_contra hne
        exact h2 hne
      rw [connPhase_loggedOut st id u now h1 h2e]
      exact chanInv_alSet h (chanBase_attempts_le h)
  · by_cases h4 : u.connection = some ("open")
    · rw [connPhase_open st id u now h4]
      exact chanInv_alSet h (by simp)
    · by_cases h5 : u.connection = some ("connecting")
      · unfold connPhase
        rw [if_neg h1, if_neg h4, if_pos h5]
        exact chanInv_alSet h (chanBase_attempts_le h)
      · unfold connPhase
        rw [if_neg h1, if_neg h4, if_neg h5]
        exact h

/- C5 theorem. -/

/-- C5: every handler transition preserves the invariant that each stored
reconnectAttempts value is at most 5 (absent reads as 0); and under that
invariant a non logged-out close puts the channel in FAILED exactly when the
current attempts value is 5, in which case reconnectAttempts is reset to 0
and no retry is scheduled. -/
theorem reconnectAttempts_invariant (st : ManagerState) (id : String) (u : ConnUpdate)
    (now : Nat) (encode : String → Except String String) (hinv : ChanInv st) :
    ChanInv (handleConnectionUpdate st id u now encode).state ∧
    (u.connection = some ("close") → u.statusCode ≠ some DisconnectReason.loggedOut →
      (((alGet (handleConnectionUpdate st id u now encode).state.channels id).map
          Channel.status = some Status.FAILED) ↔ currentAttempts st id = 5) ∧
      (currentAttempts st id = 5 →
        (alGet (handleConnectionUpdate st id u now encode).state.channels id).bind
          Channel.reconnectAttempts = some 0 ∧
        (handleConnectionUpdate st id u now encode).scheduledDelay = none)) := by
  constructor
  · exact chanInv_connPhase _ id u now (chanInv_qrPhase st id u now encode hinv)
  · intro h1 h2
    have hA : currentAttempts (qrPhase st id u now encode) id = currentAttempts st id :=
      qrPhase_currentAttempts st id u now encode
    by_cases h5 : currentAttempts st id = 5
    · have h3 : ¬ currentAttempts (qrPhase st id u now encode) id + 1 ≤ 5 := by omega
      unfold handleConnectionUpdate
      rw [connPhase_failed _ _ _ _ h1 h2 h3]
      refine ⟨⟨fun _ => h5, fun _ => ?_⟩, fun _ => ⟨?_, rfl⟩⟩
      · rw [alGet_alSet_self]
        rfl
      · rw [alGet_alSet_self]
        rfl
    · have hle : currentAttempts st id ≤ 5 := currentAttempts_le_of_inv hinv
      have h3 : currentAttempts (qrPhase st id u now encode) id + 1 ≤ 5 := by omega
      unfold handleConnectionUpdate
      rw [connPhase_reconnect _ _ _ _ h1 h2 h3]
      refine ⟨⟨fun hf => ?_, fun h5c => absurd h5c h5⟩, fun h5c => absurd h5c h5⟩
      rw [alGet_alSet_self] at hf
      simp at hf

/-- C5 witness: in stR5 the invariant holds with attempts at 5, and a
recoverable close moves the channel to FAILED with attempts 0 and nothing
scheduled. -/
theorem reconnectAttempts_invariant_witness :
    ChanInv stR5 ∧
    updClose.connection = some ("close") ∧
    updClose.statusCode ≠ some DisconnectReason.loggedOut ∧
    currentAttempts stR5 cidW = 5 ∧
    (ChanInv (handleConnectionUpdate stR5 cidW updClose 9 encW).state ∧
      (updClose.connection = some ("close") →
        updClose.statusCode ≠ some DisconnectReason.loggedOut →
        (((alGet (handleConnectionUpdate stR5 cidW updClose 9 encW).state.channels cidW).map
            Channel.status = some Status.FAILED) ↔ currentAttempts stR5 cidW = 5) ∧
        (currentAttempts stR5 cidW = 5 →
          (alGet (handleConnectionUpdate stR5 cidW updClose 9 encW).state.channels cidW).bind
            Channel.reconnectAttempts = some 0 ∧
          (handleConnectionUpdate stR5 cidW updClose 9 encW).scheduledDelay = none))) :=
  ⟨by unfold ChanInv; decide, by decide, by decide, by decide,
    reconnectAttempts_invariant stR5 cidW updClose 9 encW (by unfold ChanInv; decide)⟩

/- C1, C6, C8 theorems. -/

/-- C1 counterexample: in the state stBad the live session for cidW has a
throwing logout; closeChannel leaves both the Session entry and the Channel
record in place, refuting the claim that both are always removed. -/
theorem closeChannel_records_remain_on_logout_failure :
    (alGet (closeChannel stBad cidW).sessions cidW).isSome = true ∧
    (alGet (closeChannel stBad cidW).channels cidW).isSome = true := by decide

/-- C1 amended: after closeChannel, the Session entry and the Channel record
are both removed whenever no live session exists or the graceful logout does
not throw; when the logout throws, the error is logged and not raised, but
the whole state is left unchanged (neither record is removed). -/
theorem closeChannel_removal (st : ManagerState) (id : String) :
    (∀ s, alGet st.sessions id = some s → s.socket.logoutThrows = false →
        alGet (closeChannel st id).sessions id = none ∧
        alGet (closeChannel st id).channels id = none) ∧
    (alGet st.sessions id = none →
        alGet (closeChannel st id).sessions id = none ∧
        alGet (closeChannel st id).channels id = none) ∧
    (∀ s, alGet st.sessions id = some s → s.socket.logoutThrows = true →
        closeChannel st id = st) := by
  refine ⟨?_, ?_, ?_⟩
  · intro s hs hlog
    simp only [closeChannel, hs, hlog]
    simp [alGet_alDelete_self]
  · intro hs
    simp only [closeChannel, hs]
    exact ⟨alGet_alDelete_self _ _, alGet_alDelete_self _ _⟩
  · intro s hs hlog
    simp only [closeChannel, hs, hlog]
    simp

/-- C1 amended witness: in stGood the logout succeeds and both records are
gone afterwards. -/
theorem closeChannel_removal_witness :
    alGet (closeChannel stGood cidW).sessions cidW = none ∧
    alGet (closeChannel stGood cidW).channels cidW = none :=
  (closeChannel_removal stGood cidW).1 { socket := sockOK } (by decide) (by decide)

/-- C6 counterexample: in stGuard the id cidW is marked mid-start; a
duplicate initializeSession call is not the claimed no-op, because the
finally clause of manager.js line 188 runs on the early return and deletes
cidW from the guard set, so the id is no longer marked mid-start and the
state has changed. -/
theorem initializeSession_guard_drops_marker :
    cidW ∈ stGuard.connectingChannels ∧
    cidW ∉ (initializeSession stGuard cidW true initEnvW).connectingChannels ∧
    initializeSession stGuard cidW true initEnvW ≠ stGuard := by decide

/-- C6 amended: a call of initializeSession for an id already present in the
connectingChannels guard set returns immediately leaving the sessions store,
the channels registry, the qrPromises map, and the persisted credentials
unchanged; but the finally clause still runs on the early return and removes
the id from the guard set, so after the duplicate call returns the id is no
longer marked mid-start for the original in-flight call. -/
theorem initializeSession_guard_noop (st : ManagerState) (id : String) (forceNew : Bool)
    (env : InitEnv) (h : id ∈ st.connectingChannels) :
    (initializeSession st id forceNew env).sessions = st.sessions ∧
    (initializeSession st id forceNew env).channels = st.channels ∧
    (initializeSession st id forceNew env).qrPromises = st.qrPromises ∧
    (initializeSession st id forceNew env).authFiles = st.authFiles ∧
    (initializeSession st id forceNew env).connectingChannels =
      keyDelete st.connectingChannels id ∧
    id ∉ (initializeSession st id forceNew env).connectingChannels := by
  have he : initializeSession st id forceNew env =
      { st with connectingChannels := keyDelete st.connectingChannels id } := by
    unfold initializeSession
    rw [if_pos h]
  rw [he]
  exact ⟨rfl, rfl, rfl, rfl, rfl, not_mem_keyDelete _ _⟩

/-- C6 amended witness: stGuard has cidW marked mid-start; the duplicate call
touches nothing except the guard set, from which cidW is removed. -/
theorem initializeSession_guard_noop_witness :
    cidW ∈ stGuard.connectingChannels ∧
    ((initializeSession stGuard cidW true initEnvW).sessions = stGuard.sessions ∧
      (initializeSession stGuard cidW true initEnvW).channels = stGuard.channels ∧
      (initializeSession stGuard cidW true initEnvW).qrPromises = stGuard.qrPromises ∧
      (initializeSession stGuard cidW true initEnvW).authFiles = stGuard.authFiles ∧
      (initializeSession stGuard cidW true initEnvW).connectingChannels =
        keyDelete stGuard.connectingChannels cidW ∧
      cidW ∉ (initializeSession stGuard cidW true initEnvW).connectingChannels) :=
  ⟨by decide, initializeSession_guard_noop stGuard cidW true initEnvW (by decide)⟩

/-- C8: the regenerate operation (POST /channels/:channelId/qrcode) on an id
with no Channel record answers 404 CHANNEL_NOT_FOUND, leaves the whole state
(channels, sessions, persisted credentials) unchanged, and never starts a new
connection attempt. -/
theorem regenerateRoute_notFound (st : ManagerState) (id : String) (env : InitEnv)
    (h : alGet st.channels id = none) :
    regenerateRoute st id env =
      { httpStatus := 404, errorCode := some ("CHANNEL_NOT_FOUND"),
        finalState := st, startedInit := false } := by
  unfold regenerateRoute
  rw [h]

/-- C8 witness: the empty state has no record for cidW and the route rejects
the regenerate request without touching anything. -/
theorem regenerateRoute_notFound_witness :
    alGet emptyState.channels cidW = none ∧
    regenerateRoute emptyState cidW initEnvW =
      { httpStatus := 404, errorCode := some ("CHANNEL_NOT_FOUND"),
        finalState := emptyState, startedInit := false } :=
  ⟨by decide, regenerateRoute_notFound emptyState cidW initEnvW (by decide)⟩

/- C7, C9, C10 theorems. -/

/-- C7: for a fresh channel id whose record is still present after the
initialization and wait phase, createChannel with a timed-out QR race does
not fail: it returns ok with the recorded status and qrCode, and the
PairingWait (qrPromises) entry for the id is gone from the returned state. -/
theorem createChannel_timeout (st : ManagerState) (id : String) (now : Nat)
    (run : ManagerState → ManagerState) (c : Channel)
    (h0 : alGet st.channels id = none)
    (hc : alGet (run (createSetup st id now)).channels id = some c) :
    ∃ st2 : ManagerState,
      createChannel st id now run WaitOutcome.timedOut =
        Except.ok (st2, { channelId := id, status := c.status, qrCode := c.qrCode }) ∧
      id ∉ st2.qrPromises := by
  unfold createChannel
  rw [h0]
  simp only [Option.isSome_none, Bool.false_eq_true, if_false]
  rw [hc]
  refine ⟨_, rfl, ?_⟩
  exact not_mem_keyDelete _ _

/-- C7 witness: on the empty state with an identity wait phase, the timed-out
createChannel returns the CREATED record and no qrPromise entry remains. -/
theorem createChannel_timeout_witness :
    alGet emptyState.channels cidW = none ∧
    alGet ((fun s => s) (createSetup emptyState cidW 0)).channels cidW =
      some { status := Status.CREATED, qrCode := none, lastSeen := 0,
             reconnectAttempts := none } ∧
    ∃ st2 : ManagerState,
      createChannel emptyState cidW 0 (fun s => s) WaitOutcome.timedOut =
        Except.ok (st2, { channelId := cidW, status := Status.CREATED, qrCode := none }) ∧
      cidW ∉ st2.qrPromises :=
  ⟨by decide, by decide,
    createChannel_timeout emptyState cidW 0 (fun s => s)
      { status := Status.CREATED, qrCode := none, lastSeen := 0, reconnectAttempts := none }
      (by decide) (by decide)⟩

/-- C9: when the Channel record for the id is absent or has any status other
than CONNECTED, sendTextMessage throws CHANNEL_NOT_CONNECTED and performs
none of the later steps (no delay, no number formatting, no recipient
verification, no send). -/
theorem sendTextMessage_notConnected (st : ManagerState) (id toNumber message : String)
    (env : SendEnv)
    (h : ∀ c, alGet st.channels id = some c → c.status ≠ Status.CONNECTED) :
    sendTextMessage st id toNumber message env =
      (Except.error ("CHANNEL_NOT_CONNECTED"), []) := by
  have hb : isChannelConnected st id = false := by
    unfold isChannelConnected
    cases hg : alGet st.channels id with
    | none => rfl
    | some c =>
        have hne := h c hg
        simp [hne]
  unfold sendTextMessage
  rw [hb]
  rfl

/-- C9 witness: stR2 has a RECONNECTING (not CONNECTED) record for cidW and
the send is rejected before any effect. -/
theorem sendTextMessage_notConnected_witness :
    (∀ c, alGet stR2.channels cidW = some c → c.status ≠ Status.CONNECTED) ∧
    sendTextMessage stR2 cidW ("11988887777") ("hello") sendEnvW =
      (Except.error ("CHANNEL_NOT_CONNECTED"), []) := by
  have h : ∀ c, alGet stR2.channels cidW = some c → c.status ≠ Status.CONNECTED := by
    intro c hc
    have hv : alGet stR2.channels cidW = some chanR2 := by decide
    rw [hv] at hc
    injection hc with h2
    rw [← h2]
    decide
  exact ⟨h, sendTextMessage_notConnected stR2 cidW ("11988887777") ("hello") sendEnvW h⟩

/-- C10: formatWhatsAppNumber is idempotent, and its output is exactly the
digits of the input, prefixed with 55 when those digits do not already start
with 55, followed by the jid suffix. -/
theorem formatWhatsAppNumber_idempotent (n : String) :
    formatWhatsAppNumber (formatWhatsAppNumber n) = formatWhatsAppNumber n ∧
    formatWhatsAppNumber n = String.mk
      ((if startsWith55 (digitsOf n) then digitsOf n else '5' :: '5' :: digitsOf n) ++
        ("@s.whatsapp.net").data) := by
  have hsuffix : ("@s.whatsapp.net").data.filter Char.isDigit = [] := by decide
  have hnorm : ∀ l : List Char, startsWith55 (if startsWith55 l then l else '5' :: '5' :: l) = true := by
    intro l
    by_cases hs : startsWith55 l = true
    · rw [if_pos hs]
      exact hs
    · rw [if_neg hs]
      rfl
  refine ⟨?_, rfl⟩
  have hmem : ∀ a ∈ (if startsWith55 (digitsOf n) then digitsOf n else '5' :: '5' :: digitsOf n),
      a.isDigit = true := by
    intro a ha
    by_cases hs : startsWith55 (digitsOf n) = true
    · rw [if_pos hs] at ha
      exact List.of_mem_filter ha
    · rw [if_neg hs] at ha
      rcases List.mem_cons.mp ha with h5a | ha2
      · rw [h5a]
        decide
      · rcases List.mem_cons.mp ha2 with h5b | ha3
        · rw [h5b]
          decide
        · exact List.of_mem_filter ha3
  have hd : digitsOf (formatWhatsAppNumber n) =
      (if startsWith55 (digitsOf n) then digitsOf n else '5' :: '5' :: digitsOf n) := by
    show ((if startsWith55 (digitsOf n) then digitsOf n else '5' :: '5' :: digitsOf n) ++
        ("@s.whatsapp.net").data).filter Char.isDigit = _
    rw [List.filter_append, hsuffix, List.append_nil]
    exact List.filter_eq_self.mpr hmem
  show String.mk
      ((if startsWith55 (digitsOf (formatWhatsAppNumber n))
        then digitsOf (formatWhatsAppNumber n)
        else '5' :: '5' :: digitsOf (formatWhatsAppNumber n)) ++
        ("@s.whatsapp.net").data) = formatWhatsAppNumber n
  rw [hd, if_pos (hnorm (digitsOf n))]
  rfl

end MGA
